import Mathlib

/-!
Verification development for the accelerated-arrays core.

Shallow embeddings of the three source files
`src/cpu_image.cpp`, `src/opengl/adapters.cpp` and
`src/opengl/read_adapters.cpp`, together with theorems about:
the CPU image border policy and pixel addressing, the generated
channel-repack fragment shader, the host-side row-compaction loop,
the read-adapter control flow, and the GPU wrapper lifecycle
(destroy / unbind / finalization).

C++ `int` arithmetic is modelled with `Int` (`%` on `int` is
truncated modulo, i.e. `Int.tmod`); byte buffers are modelled as
total functions `Nat → UInt8`; fatal assertions are modelled by
returning `none`.
-/

namespace AccArrays

/-! ## cpu_image.cpp : border policy -/

/-- The `Image::Border` enumeration of `cpu_image.cpp`. -/
inductive Border where
  | ZERO
  | MIRROR
  | REPEAT
  | WRAP
  | UNDEFINED
deriving DecidableEq, Repr

/-- Embedding of `applyBorder1D(int &i, int size, Image::Border border)`
from `cpu_image.cpp`.  The C++ function mutates `i` in place and returns a
`bool`; here it returns `some (valid, rewritten i)`, and `none` models a
failed fatal assertion (the multiple-mirroring assert, and the
`assert(false)` on `UNDEFINED`).  C++ `%` on `int` truncates toward zero,
which is `Int.tmod`. -/
def applyBorder1D (i size : Int) (border : Border) : Option (Bool × Int) :=
  if 0 ≤ i ∧ i < size then
    some (true, i)
  else
    match border with
    | Border.ZERO => some (false, i)
    | Border.MIRROR =>
        let j := if i < 0 then -i else size - 1 - (i - (size - 1))
        if 0 ≤ j ∧ j < size then some (true, j) else none
    | Border.REPEAT => some (true, if i < 0 then 0 else size - 1)
    | Border.WRAP =>
        some (true, if i < 0 then size - (Int.tmod (-i) size) else Int.tmod i size)
    | Border.UNDEFINED => none

/-- Embedding of `Image::applyBorder(int &x, int &y, Border border)` from
`cpu_image.cpp`: `applyBorder1D(x, width, border) && applyBorder1D(y, height,
border)` with C++ short-circuit `&&` (when the x axis reports no valid
sample, `y` is left untouched).  Returns `some (valid, x, y)`. -/
def applyBorder (x y width height : Int) (border : Border) :
    Option (Bool × Int × Int) :=
  match applyBorder1D x width border with
  | none => none
  | some (okx, x2) =>
    if okx then
      match applyBorder1D y height border with
      | none => none
      | some (oky, y2) => some (oky, x2, y2)
    else
      some (false, x2, y)

/-! ## cpu_image.cpp : pixel get/set addressing -/

/-- The state of `cpu::ImageImplementation`: dimensions plus the flat byte
buffer `data` (modelled as a total function on byte offsets). -/
structure CpuImage where
  width : Nat
  height : Nat
  channels : Nat
  bytesPerChannel : Nat
  data : Nat → UInt8

/-- Embedding of `ImageImplementation::index(x, y)`:
`(y * width + x) * channels * bytesPerChannel()`. -/
def CpuImage.index (img : CpuImage) (x y : Nat) : Nat :=
  (y * img.width + x) * img.channels * img.bytesPerChannel

/-- One single-byte store `data[pos] = v`. -/
def updateByte (d : Nat → UInt8) (pos : Nat) (v : UInt8) : Nat → UInt8 :=
  fun n => if n = pos then v else d n

/-- Embedding of the per-channel
`ImageImplementation::set(x, y, channel, srcArray)`:
`offset = index(x, y) + channel * bpc;`
`for i < bpc: data[i + offset] = srcArray[i]`. -/
def CpuImage.set (img : CpuImage) (x y channel : Nat) (srcArray : Nat → UInt8) :
    CpuImage :=
  let offset := img.index x y + channel * img.bytesPerChannel
  { img with
    data := (List.range img.bytesPerChannel).foldl
      (fun d i => updateByte d (i + offset) (srcArray i)) img.data }

/-- Embedding of the per-channel
`ImageImplementation::get(x, y, channel, targetArray)`:
`offset = index(x, y) + channel * bpc;`
`for i < bpc: targetArray[i] = data[i + offset]`; the written target bytes
are returned as a list. -/
def CpuImage.get (img : CpuImage) (x y channel : Nat) : List UInt8 :=
  let offset := img.index x y + channel * img.bytesPerChannel
  (List.range img.bytesPerChannel).map (fun i => img.data (i + offset))

/-! ## read_adapters.cpp : generated channel-repack shader

`createFunction` in `read_adapters.cpp` emits a fragment shader of the
shape

  ivec2 outCoord = ivec2(v_texCoord / u_outSize);
  int x0 = int(outCoord.x * ratio);
  <vecM> col_i = texelFetch(u_texture, ivec2(x0 + i, outCoord.y), 0).<swiz>;
  outValue.<rgba letter number i*M+j> = col_i.<rgba letter number j>;

for `i < ratio` and `j < M = img.channels`.  The swizzle letters denote
channel indices, so the emitted statements are modelled as a list of
assignments `(destination channel, value)` applied in program order to an
initially undefined output pixel. -/

/-- The list of `outValue` assignments emitted by the shader-generation
loops of `createFunction`, for a source sampled through
`src : x ↦ y ↦ channel ↦ value`, given `x0` and `outCoord.y`. -/
def repackAssignments {α : Type} (channels ratio : Nat) (x0 outY : Int)
    (src : Int → Int → Nat → α) : List (Nat × α) :=
  (List.range ratio).flatMap (fun i =>
    (List.range channels).map (fun j =>
      (i * channels + j, src (x0 + (i : Int)) outY j)))

/-- Sequential execution of channel assignments: later assignments win. -/
def applyAssigns {α : Type} (asgns : List (Nat × α)) (st0 : Nat → Option α) :
    Nat → Option α :=
  asgns.foldl (fun f p => fun n => if n = p.1 then some p.2 else f n) st0

/-- The output pixel computed by the generated shader body, as a function
from channel number to value, for a given integer `outCoord`.
`x0 = outCoord.x * ratio` exactly as in the emitted source. -/
def shaderOutValue {α : Type} (channels ratio : Nat)
    (src : Int → Int → Nat → α) (outCoordX outCoordY : Int) : Nat → Option α :=
  applyAssigns
    (repackAssignments channels ratio (outCoordX * (ratio : Int)) outCoordY src)
    (fun _ => none)

/-- The interpolated varying `v_texCoord` at the fragment for output pixel
index `pix` of an axis of `size` pixels.  The full-screen quad maps
`a_vertexData.zw ∈ \x7b0,1\x7d` linearly over the viewport, so the fragment
center of pixel `pix` receives `(pix + 1/2) / size`. -/
def fragTexCoord (size pix : Nat) : ℚ :=
  ((pix : ℚ) + 1 / 2) / (size : ℚ)

/-- One axis of `ivec2 outCoord = ivec2(v_texCoord / u_outSize)` as emitted
by `createFunction`, where `u_outSize` carries the framebuffer size
(`GlslPipelineImplementation::call` sets it to `getWidth(), getHeight()`).
GLSL `int()` truncates toward zero; the operand here is nonnegative, so
truncation coincides with `Int.floor`. -/
def outCoordOfFrag (size pix : Nat) : Int :=
  Int.floor (fragTexCoord size pix / (size : ℚ))

/-- The full generated fragment shader evaluated at output pixel
`(px, py)` of a `W × H` target framebuffer. -/
def repackFragment {α : Type} (channels ratio W H : Nat)
    (src : Int → Int → Nat → α) (px py : Nat) : Nat → Option α :=
  shaderOutValue channels ratio src (outCoordOfFrag W px) (outCoordOfFrag H py)

/-- Embedding of the `targetWidth` computation of `createFunction`:
`origChannelsPerRow = img.channels * img.width;
 targetWidth = origChannelsPerRow / targetChannels;
 if (origChannelsPerRow % targetChannels != 0) targetWidth++;`. -/
def computeTargetWidth (channels width targetChannels : Nat) : Nat :=
  let origChannelsPerRow := channels * width
  let tw := origChannelsPerRow / targetChannels
  if origChannelsPerRow % targetChannels ≠ 0 then tw + 1 else tw

/-! ## read_adapters.cpp : host-side row compaction -/

/-- Embedding of the loop body of the `cpuFunction` lambda installed by
`Adapter::setRepackFunction`:

  for (i = 0; i < nRows; ++i) \x7b
    memcpy(out + outOffset, cpuBuffer.data() + inOffset, origRowWidth);
    outOffset += origRowWidth; inOffset += bufRowWidth;
  \x7d

The output is produced as a list (writes are contiguous from offset 0);
the recursion argument is the number of rows left, with the running
`inOffset` passed along. -/
def repackLoop (buf : Nat → UInt8) (origRowWidth bufRowWidth : Nat) :
    Nat → Nat → List UInt8
  | 0, _ => []
  | n + 1, inOffset =>
      ((List.range origRowWidth).map (fun j => buf (inOffset + j)))
        ++ repackLoop buf origRowWidth bufRowWidth n (inOffset + bufRowWidth)

/-- The complete `cpuFunction`: both offsets start at zero and the loop
runs for `nRows = buffer->height` iterations. -/
def cpuFunctionModel (buf : Nat → UInt8) (origRowWidth bufRowWidth nRows : Nat) :
    List UInt8 :=
  repackLoop buf origRowWidth bufRowWidth nRows 0

/-! ## read_adapters.cpp : adapter control flow -/

/-- Embedding of the condition of `Adapter::setRepackFunction`: it returns
`false` immediately when `buffer->size() == image.size()` and otherwise
installs `cpuFunction` and returns `true`. -/
def setRepackFunction (bufferSize imageSize : Nat) : Bool :=
  bufferSize != imageSize

/-- The externally visible operations performed by the closure returned
from `createReadAdpater`. -/
inductive ReadAction where
  | callUnary
  | readRawToTemp
  | enqueueCpuCopy
  | readRawToOut
deriving DecidableEq, Repr

/-- Which future the closure returns to its caller. -/
inductive FutureSrc where
  | fromProcessor
  | fromReadRaw
deriving DecidableEq, Repr

/-- Embedding of the closure returned by `createReadAdpater`: it always
runs the repack pipeline (`callUnary`); then, if a `cpuFunction` was
installed, it pulls the raw bytes into the adapter's temporary buffer and
enqueues the compaction on the `Processor`, returning the processor's
future; otherwise it returns the future of `readRaw` into the caller's
buffer directly. -/
def adapterInvoke (cpuFunctionSet : Bool) : List ReadAction × FutureSrc :=
  if cpuFunctionSet then
    ([ReadAction.callUnary, ReadAction.readRawToTemp, ReadAction.enqueueCpuCopy],
      FutureSrc.fromProcessor)
  else
    ([ReadAction.callUnary, ReadAction.readRawToOut], FutureSrc.fromReadRaw)

/-! ## adapters.cpp : GPU wrapper lifecycle (destroy / finalize) -/

/-- Hardware-release calls that `destroy()` implementations may issue. -/
inductive GlAction where
  | deleteTexture (id : Nat)
  | deleteFramebuffer (id : Nat)
  | deleteProgram (id : Nat)
  | deleteBuffer (id : Nat)
deriving DecidableEq, Repr

/-- State of `TextureImplementation`: the `GLuint id` handle. -/
structure TextureObj where
  id : Nat
deriving DecidableEq, Repr

/-- Embedding of `TextureImplementation::destroy()`:
`if (id != 0) glDeleteTextures(1, &id); id = 0;` — returns the new state
and the release actions issued. -/
def textureDestroy (s : TextureObj) : TextureObj × List GlAction :=
  (⟨0⟩, if s.id ≠ 0 then [GlAction.deleteTexture s.id] else [])

/-- State of `FrameBufferImplementation`: its own `GLuint id` plus the
exclusively owned `TextureImplementation`. -/
structure FrameBufferObj where
  id : Nat
  texture : TextureObj
deriving DecidableEq, Repr

/-- Embedding of `FrameBufferImplementation::destroy()`:
`if (id != 0) glDeleteFramebuffers(1, &id); id = 0; texture.destroy();`. -/
def frameBufferDestroy (s : FrameBufferObj) : FrameBufferObj × List GlAction :=
  let fbActs := if s.id ≠ 0 then [GlAction.deleteFramebuffer s.id] else []
  let t := textureDestroy s.texture
  (⟨0, t.1⟩, fbActs ++ t.2)

/-- State of `GlslProgramImplementation`: the `GLuint program` handle. -/
structure ProgramObj where
  program : Nat
deriving DecidableEq, Repr

/-- Embedding of `GlslProgramImplementation::destroy()`:
`if (program != 0) \x7b glDeleteProgram(program); program = 0; \x7d`. -/
def programDestroy (s : ProgramObj) : ProgramObj × List GlAction :=
  if s.program ≠ 0 then (⟨0⟩, [GlAction.deleteProgram s.program]) else (s, [])

/-- State of `GlslFragmentShaderImplementation` (the full-screen-quad
fragment-shader runner): the two vertex-buffer handles plus the owned
program. -/
structure FragmentShaderObj where
  vertexBuffer : Nat
  vertexIndexBuffer : Nat
  program : ProgramObj
deriving DecidableEq, Repr

/-- Embedding of `GlslFragmentShaderImplementation::destroy()`:
`if (vertexBuffer != 0) \x7b glDeleteBuffers(1, &vertexBuffer);
glDeleteBuffers(1, &vertexIndexBuffer); \x7d program.destroy();` — note the
source does not reset `vertexBuffer` or `vertexIndexBuffer` to zero. -/
def fragmentShaderDestroy (s : FragmentShaderObj) :
    FragmentShaderObj × List GlAction :=
  let bufActs :=
    if s.vertexBuffer ≠ 0 then
      [GlAction.deleteBuffer s.vertexBuffer,
       GlAction.deleteBuffer s.vertexIndexBuffer]
    else []
  let p := programDestroy s.program
  ({ s with program := p.1 }, bufActs ++ p.2)

/-- Outcome of running a destructor: whether a leak warning was logged and
whether the process aborted. -/
structure FinalizeResult where
  warnedLeak : Bool
  aborted : Bool
deriving DecidableEq, Repr

/-- Embedding of `TextureImplementation::~TextureImplementation()`:
`if (id != 0) log_warn("leaking GL texture");` — no abort path exists. -/
def textureFinalize (s : TextureObj) : FinalizeResult :=
  { warnedLeak := s.id != 0, aborted := false }

/-- Embedding of `FrameBufferImplementation::~FrameBufferImplementation()`:
`if (id != 0) log_warn("leaking frame buffer %d", id);`. -/
def frameBufferFinalize (s : FrameBufferObj) : FinalizeResult :=
  { warnedLeak := s.id != 0, aborted := false }

/-- Embedding of `GlslProgramImplementation::~GlslProgramImplementation()`:
`if (program != 0) log_warn("leaking GL program %d", program);`. -/
def programFinalize (s : ProgramObj) : FinalizeResult :=
  { warnedLeak := s.program != 0, aborted := false }

/-! ## adapters.cpp : bind / unbind state -/

/-- The graphics-context binding state touched by the three wrappers:
the texture binding, the framebuffer binding and the active program. -/
structure GlBindings where
  boundTexture : Nat
  boundFrameBuffer : Nat
  usedProgram : Nat
deriving DecidableEq, Repr

/-- Embedding of `TextureImplementation::bind()`:
`glBindTexture(bindType, id)`. -/
def textureBindOp (id : Nat) (g : GlBindings) : GlBindings :=
  { g with boundTexture := id }

/-- Embedding of `TextureImplementation::unbind()`:
`glBindTexture(bindType, 0)` — binds the null texture unconditionally,
never the texture that was bound before `bind()`. -/
def textureUnbindOp (g : GlBindings) : GlBindings :=
  { g with boundTexture := 0 }

/-- Embedding of `FrameBufferImplementation::bind()`:
`glBindFramebuffer(GL_FRAMEBUFFER, id)`. -/
def frameBufferBindOp (id : Nat) (g : GlBindings) : GlBindings :=
  { g with boundFrameBuffer := id }

/-- Embedding of `FrameBufferImplementation::unbind()`:
`glBindFramebuffer(GL_FRAMEBUFFER, 0)`. -/
def frameBufferUnbindOp (g : GlBindings) : GlBindings :=
  { g with boundFrameBuffer := 0 }

/-- Embedding of `GlslProgramImplementation::bind()`:
`glUseProgram(program)`. -/
def programBindOp (id : Nat) (g : GlBindings) : GlBindings :=
  { g with usedProgram := id }

/-- Embedding of `GlslProgramImplementation::unbind()`:
`glUseProgram(0)`. -/
def programUnbindOp (g : GlBindings) : GlBindings :=
  { g with usedProgram := 0 }

/-- Embedding of the `Binder` scope (`adapters.cpp`):
construction calls `bind()`, the scope body runs, destruction calls
`unbind()` on every exit path. -/
def binderScope (bindOp unbindOp : GlBindings → GlBindings)
    (body : GlBindings → GlBindings) (g : GlBindings) : GlBindings :=
  unbindOp (body (bindOp g))

/-! ## Theorems -/

/-- Claim C8: a coordinate already inside `[0, size)` is returned
unchanged and valid by `applyBorder1D` under every border mode (REPEAT and
WRAP hence act idempotently on it, MIRROR leaves it untouched, ZERO
reports it valid), and under ZERO any coordinate outside the range is
reported invalid.  The third conjunct states the idempotence explicitly:
feeding the rewritten coordinate back in reproduces the same result. -/
theorem applyBorder1D_in_range_spec (i size : Int) (border : Border) :
    (0 ≤ i → i < size → applyBorder1D i size border = some (true, i)) ∧
    (i < 0 ∨ size ≤ i → applyBorder1D i size Border.ZERO = some (false, i)) ∧
    (0 ≤ i → i < size →
      (applyBorder1D i size border).bind
          (fun r => applyBorder1D r.2 size border)
        = applyBorder1D i size border) := by
  refine ⟨fun h1 h2 => ?_, fun h => ?_, fun h1 h2 => ?_⟩
  · simp [applyBorder1D, h1, h2]
  · have hrange : ¬ (0 ≤ i ∧ i < size) := by omega
    simp [applyBorder1D, hrange]
  · simp [applyBorder1D, h1, h2]

/-- Witness for C8 at concrete inputs: the in-range coordinate 2 with
size 5 under MIRROR, and the out-of-range coordinate 7 under ZERO. -/
theorem applyBorder1D_in_range_witness :
    applyBorder1D 2 5 Border.MIRROR = some (true, 2) ∧
    applyBorder1D 7 5 Border.ZERO = some (false, 7) ∧
    (applyBorder1D 2 5 Border.WRAP).bind
        (fun r => applyBorder1D r.2 5 Border.WRAP)
      = applyBorder1D 2 5 Border.WRAP :=
  ⟨(applyBorder1D_in_range_spec 2 5 Border.MIRROR).1 (by decide) (by decide),
   (applyBorder1D_in_range_spec 7 5 Border.ZERO).2.1 (by decide),
   (applyBorder1D_in_range_spec 2 5 Border.WRAP).2.2 (by decide) (by decide)⟩

/-- Claim C3 (code bug, evaluated at the failing input): for a 3×3 image,
`applyBorder` with WRAP at `(x, y) = (-3, 0)` returns valid but rewrites
`x` to `size - (-x % size) = 3 - 0 = 3`, which is NOT inside `[0, 3)`;
the spec requires a modular wrap into `[0, size)`.  Every `x` that is a
negative exact multiple of the width escapes the range this way. -/
theorem applyBorder_wrap_escapes_range :
    applyBorder (-3) 0 3 3 Border.WRAP = some (true, 3, 0) ∧
    ¬ ((0 : Int) ≤ 3 ∧ (3 : Int) < 3) := by decide

/-- Helper: the rounding-up division pattern `q + (1 if remainder else 0)`
equals `(width + k - 1) / k`. -/
theorem div_round_up_eq (width k : Nat) (hk : 0 < k) :
    width / k + (if width % k ≠ 0 then 1 else 0) = (width + k - 1) / k := by
  rcases eq_or_ne (width % k) 0 with h | h
  · have hdvd := Nat.div_mul_cancel (Nat.dvd_of_mod_eq_zero h)
    simp only [h, ne_eq, not_true_eq_false, if_false, Nat.add_zero]
    have hrw : width + k - 1 = (k - 1) + (width / k) * k := by omega
    rw [hrw, Nat.add_mul_div_right _ _ hk,
      Nat.div_eq_of_lt (show k - 1 < k by omega)]
    omega
  · simp only [h, ne_eq, not_false_eq_true, if_true]
    have hmod := Nat.mod_lt width hk
    have hsplit := Nat.div_add_mod width k
    have hrw : width + k - 1 = k * (width / k) + (width % k + k - 1) := by omega
    rw [hrw, Nat.mul_add_div hk]
    have hone : (width % k + k - 1) / k = 1 := by
      have hlow : width % k + k - 1 = k + (width % k - 1) := by omega
      rw [hlow, Nat.add_comm k (width % k - 1), Nat.add_div_right _ hk,
        Nat.div_eq_of_lt (by omega)]
    omega

/-- Claim C4: for a source image of width `width` with `channels = M ≥ 1`
channels and target channel count `k * channels` with `k ≥ 2`, the
`targetWidth` computed by `createFunction` equals `⌈width / k⌉`, written
in integer arithmetic as `(width + k - 1) / k`. -/
theorem createFunction_targetWidth (channels width k : Nat)
    (hch : 1 ≤ channels) (hk : 2 ≤ k) :
    computeTargetWidth channels width (k * channels) = (width + k - 1) / k := by
  have hc0 : 0 < channels := hch
  have hk0 : 0 < k := by omega
  have hdiv : channels * width / (k * channels) = width / k := by
    rw [Nat.mul_comm k channels, Nat.mul_div_mul_left width k hc0]
  have hmod : channels * width % (k * channels) = 0 ↔ width % k = 0 := by
    rw [Nat.mul_comm k channels, Nat.mul_mod_mul_left]
    constructor
    · intro hz
      rcases Nat.mul_eq_zero.mp hz with hc | hw
      · omega
      · exact hw
    · intro hz
      rw [hz, Nat.mul_zero]
  show (if channels * width % (k * channels) ≠ 0
      then channels * width / (k * channels) + 1
      else channels * width / (k * channels)) = (width + k - 1) / k
  by_cases h : width % k = 0
  · rw [if_neg (by simpa using hmod.mpr h), hdiv]
    have h2 := div_round_up_eq width k hk0
    simpa [h] using h2
  · rw [if_pos (fun c => h (hmod.mp c)), hdiv]
    have h2 := div_round_up_eq width k hk0
    simpa [h] using h2

/-- Witness for C4: a 5-pixel-wide 2-channel image repacked to 4 channels
(`k = 2`) gets an intermediate width of `⌈5 / 2⌉ = 3`. -/
theorem createFunction_targetWidth_witness :
    computeTargetWidth 2 5 (2 * 2) = (5 + 2 - 1) / 2 :=
  createFunction_targetWidth 2 5 2 (by decide) (by decide)

/-- Helper: evaluating the byte-store loop of `CpuImage.set` at a position
`j + offset` yields the written byte when `j < n` and the old byte
otherwise. -/
theorem foldl_updateByte_eval (d : Nat → UInt8) (srcArray : Nat → UInt8)
    (offset : Nat) :
    ∀ n j : Nat,
      ((List.range n).foldl
          (fun d2 i => updateByte d2 (i + offset) (srcArray i)) d) (j + offset)
        = if j < n then srcArray j else d (j + offset) := by
  intro n
  induction n with
  | zero => intro j; simp
  | succ m ih =>
      intro j
      rw [List.range_succ, List.foldl_append, List.foldl_cons, List.foldl_nil]
      by_cases hj : j = m
      · subst hj
        simp [updateByte]
      · have hne : j + offset ≠ m + offset := by omega
        simp only [updateByte, hne, if_false, ih j]
        by_cases h2 : j < m
        · simp [h2, Nat.lt_succ_of_lt h2]
        · have h3 : ¬ j < m + 1 := by omega
          simp [h2, h3]

/-- Helper: positions not of the form `i + offset` with `i < n` are left
untouched by the byte-store loop. -/
theorem foldl_updateByte_untouched (d : Nat → UInt8) (srcArray : Nat → UInt8)
    (offset : Nat) :
    ∀ n pos : Nat, (∀ i, i < n → pos ≠ i + offset) →
      ((List.range n).foldl
          (fun d2 i => updateByte d2 (i + offset) (srcArray i)) d) pos = d pos := by
  intro n
  induction n with
  | zero => intro pos _; simp
  | succ m ih =>
      intro pos h
      rw [List.range_succ, List.foldl_append, List.foldl_cons, List.foldl_nil]
      have hm : pos ≠ m + offset := h m (Nat.lt_succ_self m)
      simp only [updateByte, hm, if_false]
      exact ih pos (fun i hi => h i (Nat.lt_succ_of_lt hi))

/-- Claim C7: on a CPU-backed image, `set` followed by `get` at the same
in-bounds coordinates and channel returns exactly the written bytes, and
every byte that `set` modified lies at offset
`(y*width + x)*channels*bytesPerChannel + channel*bytesPerChannel + i`
for some `i < bytesPerChannel`. -/
theorem cpu_set_get_roundtrip (img : CpuImage) (x y channel : Nat)
    (srcArray : Nat → UInt8)
    (hx : x < img.width) (hy : y < img.height) (hc : channel < img.channels) :
    (img.set x y channel srcArray).get x y channel
        = (List.range img.bytesPerChannel).map srcArray
      ∧ ∀ n : Nat, (img.set x y channel srcArray).data n ≠ img.data n →
          ∃ i, i < img.bytesPerChannel ∧
            n = i + ((y * img.width + x) * img.channels * img.bytesPerChannel
                      + channel * img.bytesPerChannel) := by
  constructor
  · show (List.range img.bytesPerChannel).map _ = _
    apply List.map_congr_left
    intro i hi
    have hilt : i < img.bytesPerChannel := List.mem_range.mp hi
    show ((List.range img.bytesPerChannel).foldl
        (fun d2 i2 => updateByte d2
          (i2 + (img.index x y + channel * img.bytesPerChannel)) (srcArray i2))
        img.data) (i + (img.index x y + channel * img.bytesPerChannel))
      = srcArray i
    rw [foldl_updateByte_eval, if_pos hilt]
  · intro n hne
    by_contra hno
    push_neg at hno
    apply hne
    show ((List.range img.bytesPerChannel).foldl
        (fun d2 i2 => updateByte d2
          (i2 + (img.index x y + channel * img.bytesPerChannel)) (srcArray i2))
        img.data) n = img.data n
    apply foldl_updateByte_untouched
    intro i hi hcontra
    exact absurd hcontra.symm
      (by
        have := hno i hi
        intro hh
        exact this (by rw [← hh]; rfl))

/-- Witness for C7: a 2×2, 3-channel, 2-bytes-per-channel image, writing
channel 2 of pixel (1, 1). -/
theorem cpu_set_get_roundtrip_witness :
    ((⟨2, 2, 3, 2, fun _ => 0⟩ : CpuImage).set 1 1 2
        (fun i => UInt8.ofNat (i + 7))).get 1 1 2
        = (List.range 2).map (fun i => UInt8.ofNat (i + 7))
      ∧ ∀ n : Nat,
          ((⟨2, 2, 3, 2, fun _ => 0⟩ : CpuImage).set 1 1 2
              (fun i => UInt8.ofNat (i + 7))).data n
            ≠ (fun _ => (0 : UInt8)) n →
          ∃ i, i < 2 ∧ n = i + ((1 * 2 + 1) * 3 * 2 + 2 * 2) :=
  cpu_set_get_roundtrip ⟨2, 2, 3, 2, fun _ => 0⟩ 1 1 2
    (fun i => UInt8.ofNat (i + 7)) (by decide) (by decide) (by decide)

/-- Helper: the row-compaction loop produces `n * origRowWidth` bytes. -/
theorem repackLoop_length (buf : Nat → UInt8) (origRowWidth bufRowWidth : Nat) :
    ∀ n inOffset : Nat,
      (repackLoop buf origRowWidth bufRowWidth n inOffset).length
        = n * origRowWidth := by
  intro n
  induction n with
  | zero => intro inOffset; simp [repackLoop]
  | succ m ih =>
      intro inOffset
      simp [repackLoop, ih, Nat.succ_mul, Nat.add_comm]

/-- Helper: row `i` of the loop output (as a `drop`/`take` slice) is the
`origRowWidth`-byte prefix of input row `i`, whose bytes start at
`inOffset + i * bufRowWidth`. -/
theorem repackLoop_row (buf : Nat → UInt8) (origRowWidth bufRowWidth : Nat) :
    ∀ i n inOffset : Nat, i < n →
      ((repackLoop buf origRowWidth bufRowWidth n inOffset).drop
          (i * origRowWidth)).take origRowWidth
        = (List.range origRowWidth).map
            (fun j => buf (inOffset + i * bufRowWidth + j)) := by
  intro i
  induction i with
  | zero =>
      intro n inOffset hn
      match n, hn with
      | m + 1, _ =>
        rw [Nat.zero_mul, List.drop_zero]
        show (((List.range origRowWidth).map (fun j => buf (inOffset + j)))
            ++ repackLoop buf origRowWidth bufRowWidth m
                (inOffset + bufRowWidth)).take origRowWidth = _
        rw [List.take_left' (by simp)]
        apply List.map_congr_left
        intro j _
        rw [Nat.zero_mul, Nat.add_zero]
  | succ i2 ih =>
      intro n inOffset hn
      match n, hn with
      | m + 1, hn =>
        have hi2 : i2 < m := by omega
        show ((((List.range origRowWidth).map (fun j => buf (inOffset + j)))
            ++ repackLoop buf origRowWidth bufRowWidth m
                (inOffset + bufRowWidth)).drop
              ((i2 + 1) * origRowWidth)).take origRowWidth = _
        have hsplit : (i2 + 1) * origRowWidth
            = origRowWidth + i2 * origRowWidth := by ring
        rw [hsplit, ← List.drop_drop, List.drop_left' (by simp), ih m _ hi2]
        apply List.map_congr_left
        intro j _
        have : inOffset + bufRowWidth + i2 * bufRowWidth + j
            = inOffset + (i2 + 1) * bufRowWidth + j := by ring
        rw [this]

/-- Claim C2: the host-side row-compaction function, applied to a buffer
of `nRows` rows with GPU row stride `bufRowWidth` and logical row width
`origRowWidth < bufRowWidth`, produces exactly `nRows` contiguous rows of
`origRowWidth` bytes; row `i` equals the first `origRowWidth` bytes of
input row `i` (starting at byte `i * bufRowWidth`); and every source byte
offset it reads falls in the logical prefix of its row (never in the
padding region `[origRowWidth, bufRowWidth)` of the row). -/
theorem repack_rows_spec (buf : Nat → UInt8)
    (origRowWidth bufRowWidth nRows : Nat)
    (h : origRowWidth < bufRowWidth) :
    (cpuFunctionModel buf origRowWidth bufRowWidth nRows).length
        = nRows * origRowWidth
      ∧ (∀ i, i < nRows →
          ((cpuFunctionModel buf origRowWidth bufRowWidth nRows).drop
              (i * origRowWidth)).take origRowWidth
            = (List.range origRowWidth).map
                (fun j => buf (i * bufRowWidth + j)))
      ∧ (∀ i j, i < nRows → j < origRowWidth →
          (i * bufRowWidth + j) % bufRowWidth < origRowWidth) := by
  refine ⟨repackLoop_length buf origRowWidth bufRowWidth nRows 0, ?_, ?_⟩
  · intro i hi
    have := repackLoop_row buf origRowWidth bufRowWidth i nRows 0 hi
    simpa using this
  · intro i j hi hj
    have hmod : (i * bufRowWidth + j) % bufRowWidth = j := by
      rw [Nat.add_comm (i * bufRowWidth) j, Nat.add_mul_mod_self_right,
        Nat.mod_eq_of_lt (by omega)]
    omega

/-- Witness for C2: two rows of stride 3 compacted to logical width 2 on
the buffer whose byte at offset `n` is `n`; the compacted output is
`[0, 1, 3, 4]`. -/
theorem repack_rows_spec_witness :
    (cpuFunctionModel (fun n => UInt8.ofNat n) 2 3 2).length = 2 * 2
      ∧ (∀ i, i < 2 →
          ((cpuFunctionModel (fun n => UInt8.ofNat n) 2 3 2).drop (i * 2)).take 2
            = (List.range 2).map (fun j => UInt8.ofNat (i * 3 + j)))
      ∧ (∀ i j, i < 2 → j < 2 → (i * 3 + j) % 3 < 2) :=
  repack_rows_spec (fun n => UInt8.ofNat n) 2 3 2 (by decide)

/-- Helper: because the generated shader divides the interpolated
`v_texCoord` (which lies in `[0, 1)`) by `u_outSize` instead of
multiplying, the computed `outCoord` component is `0` for every fragment
of the framebuffer. -/
theorem outCoord_always_zero (size pix : Nat) (hs : 0 < size)
    (hp : pix < size) : outCoordOfFrag size pix = 0 := by
  unfold outCoordOfFrag fragTexCoord
  rw [Int.floor_eq_zero_iff, Set.mem_Ico]
  have hs2 : (0 : ℚ) < (size : ℚ) := by exact_mod_cast hs
  constructor
  · positivity
  · rw [div_div, div_lt_one (by positivity)]
    have hp2 : (pix : ℚ) + 1 ≤ (size : ℚ) := by exact_mod_cast hp
    have hle : (size : ℚ) ≤ (size : ℚ) * (size : ℚ) :=
      le_mul_of_one_le_left (le_of_lt hs2) (by exact_mod_cast hs)
    linarith

/-- A concrete source image sample for exercising the repack shader:
pixel `x` of any row has channel values `10 x + c`. -/
def srcDemo : Int → Int → Nat → Int := fun x _ c => 10 * x + (c : Int)

/-- Claim C1 (code bug, evaluated at the failing input): repacking a
2-channel source of width 4 into 4 channels (`k = 2`, output 2×1), the
output pixel at `outputX = 1` should, per the claim, hold the
concatenated channels of source pixels `1 * 2 = 2` and `3`
(`[20, 21, 30, 31]` for `srcDemo`); the generated shader instead computes
`outCoord = ivec2(v_texCoord / u_outSize) = (0, 0)` for every fragment
and produces the channels of source pixels 0 and 1, `[0, 1, 10, 11]`. -/
theorem repack_shader_wrong_pixel :
    (List.range 4).map (fun c => repackFragment 2 2 2 1 srcDemo 1 0 c)
        = [some 0, some 1, some 10, some 11]
      ∧ (List.range 2).flatMap
          (fun i => (List.range 2).map
            (fun j => some (srcDemo ((1 : Int) * 2 + (i : Int)) 0 j)))
        = [some 20, some 21, some 30, some 31]
      ∧ (List.range 4).map (fun c => repackFragment 2 2 2 1 srcDemo 1 0 c)
        ≠ (List.range 2).flatMap
            (fun i => (List.range 2).map
              (fun j => some (srcDemo ((1 : Int) * 2 + (i : Int)) 0 j))) := by
  have h1 : outCoordOfFrag 2 1 = 0 :=
    outCoord_always_zero 2 1 (by norm_num) (by norm_num)
  have h0 : outCoordOfFrag 1 0 = 0 :=
    outCoord_always_zero 1 0 (by norm_num) (by norm_num)
  refine ⟨?_, by decide, ?_⟩
  · simp only [repackFragment, h1, h0]
    decide
  · simp only [repackFragment, h1, h0]
    decide

/-- Claim C5 (counterexample): for the fragment-shader runner with
vertex-buffer handles 1 and 2 and program handle 3, one `destroy()`
leaves `vertexBuffer = 1` (not the sentinel zero), and a second
`destroy()` issues the two `glDeleteBuffers` release actions again — it
is not a no-op. -/
theorem fragmentShader_destroy_not_idempotent :
    (fragmentShaderDestroy ⟨1, 2, ⟨3⟩⟩).1.vertexBuffer = 1
      ∧ (fragmentShaderDestroy (fragmentShaderDestroy ⟨1, 2, ⟨3⟩⟩).1).2
          = [GlAction.deleteBuffer 1, GlAction.deleteBuffer 2] := by decide

/-- Claim C5 (amended): for Texture, FrameBuffer and Program wrappers,
`destroy()` is idempotent exactly as claimed — after one call the handle
is the sentinel zero (for FrameBuffer, including the owned texture's
handle) and a second call issues no hardware-release action.  For the
fragment-shader runner, the embedded program's handle is cleared, but the
vertex-buffer handles are not reset to zero, so whenever they are nonzero
a second `destroy()` re-issues the two buffer deletions (while still not
repeating the program deletion). -/
theorem destroy_idempotent_amended (t : TextureObj) (fb : FrameBufferObj)
    (p : ProgramObj) (fs : FragmentShaderObj) :
    ((textureDestroy t).1.id = 0
        ∧ (textureDestroy (textureDestroy t).1).2 = [])
      ∧ ((frameBufferDestroy fb).1.id = 0
          ∧ (frameBufferDestroy fb).1.texture.id = 0
          ∧ (frameBufferDestroy (frameBufferDestroy fb).1).2 = [])
      ∧ ((programDestroy p).1.program = 0
          ∧ (programDestroy (programDestroy p).1).2 = [])
      ∧ ((fragmentShaderDestroy fs).1.program.program = 0
          ∧ (fragmentShaderDestroy fs).1.vertexBuffer = fs.vertexBuffer
          ∧ (fs.vertexBuffer ≠ 0 →
              (fragmentShaderDestroy (fragmentShaderDestroy fs).1).2
                = [GlAction.deleteBuffer fs.vertexBuffer,
                   GlAction.deleteBuffer fs.vertexIndexBuffer])) := by
  refine ⟨⟨?_, ?_⟩, ⟨?_, ?_, ?_⟩, ⟨?_, ?_⟩, ⟨?_, ?_, ?_⟩⟩
  · rfl
  · simp [textureDestroy]
  · rfl
  · rfl
  · simp [frameBufferDestroy, textureDestroy]
  · by_cases hp : p.program = 0
    · simp [programDestroy, hp]
    · simp [programDestroy, hp]
  · by_cases hp : p.program = 0
    · simp [programDestroy, hp]
    · simp [programDestroy, hp]
  · by_cases hp : fs.program.program = 0
    · simp [fragmentShaderDestroy, programDestroy, hp]
    · simp [fragmentShaderDestroy, programDestroy, hp]
  · by_cases hp : fs.program.program = 0
    · simp [fragmentShaderDestroy, programDestroy, hp]
    · simp [fragmentShaderDestroy, programDestroy, hp]
  · intro hv
    by_cases hp : fs.program.program = 0
    · simp [fragmentShaderDestroy, programDestroy, hp, hv]
    · simp [fragmentShaderDestroy, programDestroy, hp, hv]

/-- Witness for the amended C5 at concrete handles. -/
theorem destroy_idempotent_amended_witness :
    (textureDestroy ⟨5⟩).1.id = 0
      ∧ (fragmentShaderDestroy (fragmentShaderDestroy ⟨1, 2, ⟨3⟩⟩).1).2
          = [GlAction.deleteBuffer 1, GlAction.deleteBuffer 2] :=
  ⟨(destroy_idempotent_amended ⟨5⟩ ⟨6, ⟨7⟩⟩ ⟨8⟩ ⟨1, 2, ⟨3⟩⟩).1.1,
   (destroy_idempotent_amended ⟨5⟩ ⟨6, ⟨7⟩⟩ ⟨8⟩ ⟨1, 2, ⟨3⟩⟩).2.2.2.2.2
     (by decide)⟩

/-- Claim C6: the closure returned by `createReadAdpater` first runs the
repack pipeline; when the repack `cpuFunction` was installed (which
`setRepackFunction` does exactly when the intermediate buffer's byte size
differs from the image's), it pulls the raw bytes into the adapter's
temporary buffer, enqueues the compaction on the `Processor` and returns
the processor's future; when no compaction is needed it returns the
`readRaw` future directly and never enqueues anything. -/
theorem read_adapter_branching (bufferSize imageSize : Nat) :
    (setRepackFunction bufferSize imageSize = true ↔ bufferSize ≠ imageSize)
      ∧ (setRepackFunction bufferSize imageSize = true →
          adapterInvoke (setRepackFunction bufferSize imageSize)
            = ([ReadAction.callUnary, ReadAction.readRawToTemp,
                ReadAction.enqueueCpuCopy], FutureSrc.fromProcessor))
      ∧ (setRepackFunction bufferSize imageSize = false →
          adapterInvoke (setRepackFunction bufferSize imageSize)
              = ([ReadAction.callUnary, ReadAction.readRawToOut],
                 FutureSrc.fromReadRaw)
            ∧ ReadAction.enqueueCpuCopy
                ∉ (adapterInvoke (setRepackFunction bufferSize imageSize)).1) := by
  refine ⟨?_, fun h => ?_, fun h => ?_⟩
  · simp [setRepackFunction]
  · rw [h]
    rfl
  · rw [h]
    exact ⟨rfl, by decide⟩

/-- Witness for C6: with differing sizes (24 vs 16) the processor future
is returned; with equal sizes (16 vs 16) the `readRaw` future is returned
and no enqueue happens. -/
theorem read_adapter_branching_witness :
    adapterInvoke (setRepackFunction 24 16)
        = ([ReadAction.callUnary, ReadAction.readRawToTemp,
            ReadAction.enqueueCpuCopy], FutureSrc.fromProcessor)
      ∧ adapterInvoke (setRepackFunction 16 16)
          = ([ReadAction.callUnary, ReadAction.readRawToOut],
             FutureSrc.fromReadRaw) :=
  ⟨(read_adapter_branching 24 16).2.1 (by decide),
   ((read_adapter_branching 16 16).2.2 (by decide)).1⟩

/-- Claim C9: finalizing a Texture, FrameBuffer or Program wrapper whose
handle is still nonzero logs the leak warning, and no finalization path
aborts the process. -/
theorem finalize_warns_never_aborts (t : TextureObj) (fb : FrameBufferObj)
    (p : ProgramObj) :
    (t.id ≠ 0 → textureFinalize t = ⟨true, false⟩)
      ∧ (textureFinalize t).aborted = false
      ∧ (fb.id ≠ 0 → frameBufferFinalize fb = ⟨true, false⟩)
      ∧ (frameBufferFinalize fb).aborted = false
      ∧ (p.program ≠ 0 → programFinalize p = ⟨true, false⟩)
      ∧ (programFinalize p).aborted = false := by
  refine ⟨fun h => ?_, rfl, fun h => ?_, rfl, fun h => ?_, rfl⟩
  · simp [textureFinalize, h]
  · simp [frameBufferFinalize, h]
  · simp [programFinalize, h]

/-- Witness for C9 at concrete leaked handles 5, 6 and 8. -/
theorem finalize_warns_never_aborts_witness :
    textureFinalize ⟨5⟩ = ⟨true, false⟩
      ∧ frameBufferFinalize ⟨6, ⟨7⟩⟩ = ⟨true, false⟩
      ∧ programFinalize ⟨8⟩ = ⟨true, false⟩ :=
  ⟨(finalize_warns_never_aborts ⟨5⟩ ⟨6, ⟨7⟩⟩ ⟨8⟩).1 (by decide),
   (finalize_warns_never_aborts ⟨5⟩ ⟨6, ⟨7⟩⟩ ⟨8⟩).2.2.1 (by decide),
   (finalize_warns_never_aborts ⟨5⟩ ⟨6, ⟨7⟩⟩ ⟨8⟩).2.2.2.2.1 (by decide)⟩

/-- Claim C10: `unbind()` on the Texture, FrameBuffer and Program
wrappers always rebinds the null object (handle 0), never the previously
bound object; consequently a `Binder` scope around any of them — whatever
its body does — leaves the corresponding binding cleared to 0, and in
particular not restored to a nonzero pre-scope value. -/
theorem unbind_resets_to_null (g : GlBindings) (id : Nat)
    (body : GlBindings → GlBindings) :
    (textureUnbindOp g).boundTexture = 0
      ∧ (frameBufferUnbindOp g).boundFrameBuffer = 0
      ∧ (programUnbindOp g).usedProgram = 0
      ∧ (binderScope (textureBindOp id) textureUnbindOp body g).boundTexture = 0
      ∧ (binderScope (frameBufferBindOp id) frameBufferUnbindOp body
          g).boundFrameBuffer = 0
      ∧ (binderScope (programBindOp id) programUnbindOp body g).usedProgram = 0
      ∧ (g.boundTexture ≠ 0 →
          (binderScope (textureBindOp id) textureUnbindOp body
              g).boundTexture ≠ g.boundTexture) := by
  refine ⟨rfl, rfl, rfl, rfl, rfl, rfl, fun h => ?_⟩
  show (0 : Nat) ≠ g.boundTexture
  exact Ne.symm h

/-- Witness for C10: pre-scope bindings (5, 6, 7), wrapper handle 9, and
a scope body that rebinds texture 4 in between. -/
theorem unbind_resets_to_null_witness :
    (binderScope (textureBindOp 9) textureUnbindOp (textureBindOp 4)
        ⟨5, 6, 7⟩).boundTexture = 0
      ∧ (binderScope (textureBindOp 9) textureUnbindOp (textureBindOp 4)
          ⟨5, 6, 7⟩).boundTexture ≠ (⟨5, 6, 7⟩ : GlBindings).boundTexture :=
  ⟨(unbind_resets_to_null ⟨5, 6, 7⟩ 9 (textureBindOp 4)).2.2.2.1,
   (unbind_resets_to_null ⟨5, 6, 7⟩ 9 (textureBindOp 4)).2.2.2.2.2.2
     (by decide)⟩

end AccArrays
